import Mathlib

/-!
# CricInfo scraper — verification of the scheduler and tracker layer

A shallow embedding of the match lifecycle code of the CricInfo repository:

* `scraper/types.py` — `MatchStatus`, the match record;
* `scraper/match_scraper.py` — the per-match tracker (`MatchScraper`):
  bounded-retry initialization, the live-tracking worker loop,
  `start_live_tracking`, `stop`;
* `scraper/scheduler.py` — the scheduler (`MatchScheduler`):
  `update_match_list`, the transition-evaluation tick
  (`check_match_status`), `stop`, `get_status`;
* `scraper/data_store.py` — the in-memory content of the persisted match
  list as touched by `update_match_status` and `store_match_list`.

External effects are abstracted pointwise: wall-clock time is an explicit
`Int` parameter (seconds); whether a given initialization attempt or
extraction pull succeeds, and whether the page reports a match as ended,
are oracle functions supplied to each operation.  An exception raised
while the tick processes one match is modelled by an `aborted` flag that
freezes the remaining matches of that tick, mirroring the single
`try`/`except` wrapped around the whole loop in `check_match_status`.
Timestamps are seconds, so `timedelta(minutes=5)` is `300`.
-/

namespace CricInfo

/-- The `MatchStatus` enumeration from `scraper/types.py`. -/
inductive MatchStatus where
  | UPCOMING
  | LIVE
  | COMPLETED
deriving DecidableEq, Repr

/-- One processed match record as held in `MatchScheduler.match_list` and in
the persisted match list: `dateTime` is the already-parsed absolute
timestamp (seconds). -/
structure MatchRec where
  id : String
  teams : String
  fmt : String
  dateTime : Int
  url : String
  status : MatchStatus
deriving DecidableEq, Repr

/-- One raw record as returned by the discovery page before date parsing:
`dateTime` is still the human-readable text. -/
structure RawMatch where
  id : String
  teams : String
  fmt : String
  dateTime : String
  url : String
deriving DecidableEq, Repr

/-! ## The per-match tracker (`MatchScraper`) -/

/-- The observable state of one `MatchScraper`: whether its browser driver
is open, whether live tracking is flagged on, whether the stop event is
set, whether the tracking thread is running, and how many tracking threads
were ever spawned. -/
structure ScraperState where
  matchId : String
  matchUrl : String
  hasDriver : Bool
  isTracking : Bool
  stopEventSet : Bool
  threadRunning : Bool
  threadsSpawned : Nat
deriving DecidableEq, Repr

/-- Constructor `MatchScraper.__init__`: no driver, not tracking, stop event unset. -/
def newScraper (id url : String) : ScraperState :=
  { matchId := id, matchUrl := url, hasDriver := false, isTracking := false,
    stopEventSet := false, threadRunning := false, threadsSpawned := 0 }

/-- The state of a scraper whose `initialize` succeeded: the driver is
open, nothing else has changed from construction. -/
def initializedScraper (id url : String) : ScraperState :=
  { newScraper id url with hasDriver := true }

/-- Outcome of `MatchScraper.initialize`: whether it returned normally,
how many full initialization attempts ran, and the total seconds slept in
`time.sleep(self.retry_delay)` calls between attempts. -/
structure InitOutcome where
  success : Bool
  attempts : Nat
  totalSleep : Nat
deriving DecidableEq, Repr

/-- The retry recursion of `MatchScraper.initialize`.  `ok n` tells whether
the attempt with `retry_count = n` succeeds; `fuel` is the number of
retries still allowed (`max_retries - retry_count`); `attempt` is the
current value of `retry_count`.  A sleep of `retry_delay = 5` seconds
precedes every attempt but the first, so on exit the accumulated sleep is
`5 * attempt`. -/
def initLoop (ok : Nat → Bool) : Nat → Nat → InitOutcome
  | fuel, attempt =>
    if ok attempt then ⟨true, attempt + 1, 5 * attempt⟩
    else
      match fuel with
      | 0 => ⟨false, attempt + 1, 5 * attempt⟩
      | f + 1 => initLoop ok f (attempt + 1)

/-- Entry point `MatchScraper.initialize` as called by the scheduler: `retry_count`
starts at `0` and `max_retries = 3`. -/
def scraperInitialize (ok : Nat → Bool) : InitOutcome :=
  initLoop ok 3 0

/-- Operation `MatchScraper.start_live_tracking`: a no-op when `is_tracking` is
already set; otherwise it sets the flag, clears the stop event, and spawns
the tracking thread. -/
def startLiveTracking (s : ScraperState) : ScraperState :=
  if s.isTracking then s
  else
    { s with isTracking := true, stopEventSet := false,
             threadRunning := true, threadsSpawned := s.threadsSpawned + 1 }

/-- Operation `MatchScraper.stop`: set the stop event, join the tracking thread (it
observes the signal and halts), clear `is_tracking`, quit and clear the
driver. -/
def scraperStop (s : ScraperState) : ScraperState :=
  { s with stopEventSet := true, threadRunning := false,
           isTracking := false, hasDriver := false }

/-! ## The live-tracking worker (`_live_tracking_worker`)

`fail n = true` means the `n`-th pull of live data and scorecard raises.
Pull `0` is the initial pull that runs before the `while` loop and outside
the inner `try`; pulls `1, 2, …` run inside the loop with their failures
caught and logged.  `k` is the number of loop iterations executed before
the stop event is observed by the loop condition. -/

/-- How the worker thread of `_live_tracking_worker` exited. -/
inductive WorkerExit where
  | stoppedBySignal
  | workerFailed
deriving DecidableEq, Repr

/-- What the worker did: successful live+scorecard persists and errors
logged-and-swallowed inside the loop. -/
structure WorkerLog where
  pulls : Nat
  errorsLogged : Nat
deriving DecidableEq, Repr

/-- The `while not self.stop_event.is_set()` loop: each iteration either
persists a pull or logs and swallows its failure, then waits; the loop
condition stops it after `k` iterations. -/
def liveLoop (fail : Nat → Bool) : Nat → Nat → WorkerLog → WorkerLog
  | 0, _, log => log
  | k + 1, i, log =>
      liveLoop fail k (i + 1)
        (if fail i then { log with errorsLogged := log.errorsLogged + 1 }
         else { log with pulls := log.pulls + 1 })

/-- Worker `_live_tracking_worker`: the initial pull runs outside the inner
`try`; if it raises, the outer handler logs it and the worker returns
without ever entering the loop.  Otherwise the loop runs until the stop
signal is observed after `k` iterations. -/
def liveWorker (fail : Nat → Bool) (k : Nat) : WorkerExit × WorkerLog :=
  if fail 0 then (.workerFailed, ⟨0, 0⟩)
  else (.stoppedBySignal, liveLoop fail k 1 ⟨1, 0⟩)

/-! ## The persisted match list (`DataStore`) -/

/-- Operation `DataStore.update_match_status` on the loaded list: set the status of
the first record carrying the id (the loop `break`s at the first hit) and
leave everything else untouched. -/
def updateStatusInList (id : String) (st : MatchStatus) :
    List MatchRec → List MatchRec
  | [] => []
  | m :: ms =>
      if m.id = id then { m with status := st } :: ms
      else m :: updateStatusInList id st ms

/-- The status the store reports for an id: the status field of the first
record with that id. -/
def lookupStatus (l : List MatchRec) (id : String) : Option MatchStatus :=
  match l with
  | [] => none
  | m :: ms => if m.id = id then some m.status else lookupStatus ms id

/-! ## The scheduler (`MatchScheduler`) -/

/-- The ids keyed in an association list of active scrapers. -/
def scraperIds (l : List (String × ScraperState)) : List String :=
  l.map Prod.fst

/-- Test `match_id in self.active_scrapers`: key membership in the dictionary. -/
def hasKey (l : List (String × ScraperState)) (k : String) : Bool :=
  l.any (fun p => p.1 = k)

/-- Read `self.active_scrapers[match_id]`: value at a key. -/
def lookupScraper : List (String × ScraperState) → String → Option ScraperState
  | [], _ => none
  | p :: ps, k => if p.1 = k then some p.2 else lookupScraper ps k

/-- Write `self.active_scrapers[match_id] = scraper`: overwrite the key if
present, append it otherwise. -/
def insertScraper : List (String × ScraperState) → String → ScraperState →
    List (String × ScraperState)
  | [], k, v => [(k, v)]
  | p :: ps, k, v => if p.1 = k then (k, v) :: ps else p :: insertScraper ps k v

/-- Deletion `del self.active_scrapers[match_id]`: drop the key. -/
def removeScraper : List (String × ScraperState) → String →
    List (String × ScraperState)
  | [], _ => []
  | p :: ps, k => if p.1 = k then removeScraper ps k else p :: removeScraper ps k

/-- The observable state of one `MatchScheduler` together with the match
list its `DataStore` holds on disk (`storedList`).  `stoppedLog` records,
in order, every scraper handle the scheduler stopped and released, with
its state after `stop()` — the observation needed to state that teardown
really halted and released each handle. -/
structure SchedulerState where
  matchList : List MatchRec
  activeScrapers : List (String × ScraperState)
  isRunning : Bool
  hasDriver : Bool
  storedList : List MatchRec
  stoppedLog : List (String × ScraperState)
deriving DecidableEq, Repr

/-- The oracles one tick consults: whether `MatchScraper.initialize`
returns normally for a given match id (its internal retries already
accounted), and what `check_if_match_ended` reports for a given id. -/
structure TickEnv where
  initOk : String → Bool
  ended : String → Bool

/-- The accumulator threaded through the `for match in self.match_list`
loop of `check_match_status`: the scrapers dictionary, the store's list,
the release log, and whether an exception already aborted the loop. -/
structure TickAcc where
  scrapers : List (String × ScraperState)
  stored : List MatchRec
  stoppedLog : List (String × ScraperState)
  aborted : Bool
deriving DecidableEq, Repr

/-- First conditional of `check_match_status`: the match is within five
minutes of its start, strictly in the future, and has no scraper — create
and initialize a scraper, register it, set and persist `UPCOMING`.  A
failure of `initialize` (after its internal retries) raises before the
handle is registered, aborting the loop. -/
def branch1 (env : TickEnv) (now : Int) (m : MatchRec) (acc : TickAcc) :
    MatchRec × TickAcc :=
  if m.dateTime - now ≤ 300 ∧ now < m.dateTime ∧ hasKey acc.scrapers m.id = false then
    if env.initOk m.id then
      ({ m with status := .UPCOMING },
       { acc with
           scrapers := insertScraper acc.scrapers m.id (initializedScraper m.id m.url),
           stored := updateStatusInList m.id .UPCOMING acc.stored })
    else (m, { acc with aborted := true })
  else (m, acc)

/-- Second conditional: the match has started, a scraper is registered and
the status is not yet `LIVE` — start live tracking, set and persist
`LIVE`. -/
def branch2 (now : Int) (m : MatchRec) (acc : TickAcc) : MatchRec × TickAcc :=
  if m.dateTime ≤ now ∧ hasKey acc.scrapers m.id = true ∧ m.status ≠ .LIVE then
    let scr := (lookupScraper acc.scrapers m.id).getD (newScraper m.id m.url)
    ({ m with status := .LIVE },
     { acc with
         scrapers := insertScraper acc.scrapers m.id (startLiveTracking scr),
         stored := updateStatusInList m.id .LIVE acc.stored })
  else (m, acc)

/-- Third conditional: the match is `LIVE` with a registered scraper — ask
`check_if_match_ended`; if ended, stop the scraper, delete its key, set
and persist `COMPLETED`. -/
def branch3 (env : TickEnv) (m : MatchRec) (acc : TickAcc) : MatchRec × TickAcc :=
  if m.status = .LIVE ∧ hasKey acc.scrapers m.id = true then
    if env.ended m.id then
      let scr := (lookupScraper acc.scrapers m.id).getD (newScraper m.id m.url)
      ({ m with status := .COMPLETED },
       { acc with
           scrapers := removeScraper acc.scrapers m.id,
           stoppedLog := acc.stoppedLog ++ [(m.id, scraperStop scr)],
           stored := updateStatusInList m.id .COMPLETED acc.stored })
    else (m, acc)
  else (m, acc)

/-- One loop iteration of `check_match_status` over one match: the three
conditionals run in sequence on the mutated record; once an exception has
aborted the loop, later matches are not evaluated. -/
def stepMatch (env : TickEnv) (now : Int) (m : MatchRec) (acc : TickAcc) :
    MatchRec × TickAcc :=
  if acc.aborted then (m, acc)
  else
    let r1 := branch1 env now m acc
    if r1.2.aborted then r1
    else
      let r2 := branch2 now r1.1 r1.2
      branch3 env r2.1 r2.2

/-- The `for` loop of `check_match_status` over the whole match list,
returning the mutated list and the final accumulator. -/
def runMatches (env : TickEnv) (now : Int) :
    List MatchRec → TickAcc → List MatchRec × TickAcc
  | [], acc => ([], acc)
  | m :: ms, acc =>
      let r := stepMatch env now m acc
      let rs := runMatches env now ms r.2
      (r.1 :: rs.1, rs.2)

/-- Tick `MatchScheduler.check_match_status` at wall-clock `now`: a no-op when
the scheduler is not running; otherwise the loop runs over the match list,
with any exception caught at the end (mutations made before the exception
are kept). -/
def checkMatchStatus (env : TickEnv) (now : Int) (s : SchedulerState) :
    SchedulerState :=
  if s.isRunning = false then s
  else
    let r := runMatches env now s.matchList
        ⟨s.activeScrapers, s.storedList, s.stoppedLog, false⟩
    { s with matchList := r.1, activeScrapers := r.2.scrapers,
             storedList := r.2.stored, stoppedLog := r.2.stoppedLog }

/-- The record-processing loop of `update_match_list`: parse each raw
record's date text; a record that parses becomes an `UPCOMING` match
record, one that does not is dropped and a warning is logged (the second
component counts the warnings). -/
def processMatches (parse : String → Option Int) :
    List RawMatch → List MatchRec × Nat
  | [] => ([], 0)
  | r :: rs =>
      let acc := processMatches parse rs
      match parse r.dateTime with
      | some t =>
          ({ id := r.id, teams := r.teams, fmt := r.fmt, dateTime := t,
             url := r.url, status := .UPCOMING } :: acc.1, acc.2)
      | none => (acc.1, acc.2 + 1)

/-- Refresh `MatchScheduler.update_match_list` on a discovery result `raws`: a
no-op without a driver or when not running; otherwise the in-memory list
is replaced by the processed records and the same list is stored.  All
exceptions are caught, so it always returns to the caller. -/
def updateMatchList (parse : String → Option Int) (raws : List RawMatch)
    (s : SchedulerState) : SchedulerState :=
  if s.hasDriver = false ∨ s.isRunning = false then s
  else
    let pm := (processMatches parse raws).1
    { s with matchList := pm, storedList := pm }

/-- Shutdown `MatchScheduler.stop`: clear the running flag, stop and drop every
active scraper (logging each released handle), and quit the driver. -/
def schedulerStop (s : SchedulerState) : SchedulerState :=
  { s with isRunning := false, activeScrapers := [],
           stoppedLog := s.stoppedLog ++
             s.activeScrapers.map (fun p => (p.1, scraperStop p.2)),
           hasDriver := false }

/-- The summary `MatchScheduler.get_status` returns. -/
structure StatusReport where
  isRunning : Bool
  matchCount : Nat
  activeScrapers : List String
  upcomingMatches : Nat
  liveMatches : Nat
  completedMatches : Nat
deriving DecidableEq, Repr

/-- Report `MatchScheduler.get_status`: derived purely from in-memory state. -/
def getStatus (s : SchedulerState) : StatusReport :=
  { isRunning := s.isRunning,
    matchCount := s.matchList.length,
    activeScrapers := scraperIds s.activeScrapers,
    upcomingMatches := (s.matchList.filter (fun m => m.status = .UPCOMING)).length,
    liveMatches := (s.matchList.filter (fun m => m.status = .LIVE)).length,
    completedMatches := (s.matchList.filter (fun m => m.status = .COMPLETED)).length }

/-- The tracker-handle invariant of the spec, over a match list and a
scrapers dictionary: every registered id belongs to a listed match whose
status is `UPCOMING` or `LIVE`, and every `LIVE` match has a registered
handle. -/
def trackerInvariant (ml : List MatchRec) (scr : List (String × ScraperState)) : Prop :=
  (∀ x ∈ scraperIds scr,
      ∃ m, m ∈ ml ∧ m.id = x ∧ (m.status = .UPCOMING ∨ m.status = .LIVE)) ∧
  (∀ m ∈ ml, m.status = .LIVE → m.id ∈ scraperIds scr)

instance (ml : List MatchRec) (scr : List (String × ScraperState)) :
    Decidable (trackerInvariant ml scr) := by
  unfold trackerInvariant
  infer_instance

/-! ## Dictionary lemmas -/

theorem hasKey_iff_mem {l : List (String × ScraperState)} {k : String} :
    hasKey l k = true ↔ k ∈ scraperIds l := by
  simp only [hasKey, List.any_eq_true, decide_eq_true_eq, scraperIds,
    List.mem_map]

theorem hasKey_false_iff {l : List (String × ScraperState)} {k : String} :
    hasKey l k = false ↔ k ∉ scraperIds l := by
  rw [← Bool.not_eq_true, not_iff_not]
  exact hasKey_iff_mem

theorem mem_scraperIds_insert {l : List (String × ScraperState)}
    {k x : String} {v : ScraperState} :
    x ∈ scraperIds (insertScraper l k v) ↔ x = k ∨ x ∈ scraperIds l := by
  induction l with
  | nil => simp [insertScraper, scraperIds]
  | cons p ps ih =>
      by_cases h : p.1 = k
      · rw [insertScraper, if_pos h]
        simp only [scraperIds, List.map_cons, List.mem_cons, h]
        tauto
      · rw [insertScraper, if_neg h]
        simp only [scraperIds, List.map_cons, List.mem_cons]
        rw [show List.map Prod.fst (insertScraper ps k v) =
              scraperIds (insertScraper ps k v) from rfl, ih]
        tauto

theorem mem_scraperIds_remove {l : List (String × ScraperState)}
    {k x : String} :
    x ∈ scraperIds (removeScraper l k) ↔ x ∈ scraperIds l ∧ x ≠ k := by
  induction l with
  | nil => simp [removeScraper, scraperIds]
  | cons p ps ih =>
      by_cases h : p.1 = k
      · rw [removeScraper, if_pos h, ih]
        simp only [scraperIds, List.map_cons, List.mem_cons, h]
        tauto
      · rw [removeScraper, if_neg h]
        simp only [scraperIds, List.map_cons, List.mem_cons]
        rw [show List.map Prod.fst (removeScraper ps k) =
              scraperIds (removeScraper ps k) from rfl, ih]
        constructor
        · rintro (rfl | ⟨hx, hne⟩)
          · exact ⟨Or.inl rfl, h⟩
          · exact ⟨Or.inr hx, hne⟩
        · rintro ⟨rfl | hx, hne⟩
          · exact Or.inl rfl
          · exact Or.inr ⟨hx, hne⟩

/-! ## Claim theorems: the tracker -/

/-- C7.  `stop()` is idempotent: a second call yields the very same end
state, and after a `stop()` the stop signal is set, the polling loop has
halted, tracking is off and the driver session is released. -/
theorem C7_stop_idempotent (s : ScraperState) :
    scraperStop (scraperStop s) = scraperStop s ∧
    (scraperStop s).stopEventSet = true ∧
    (scraperStop s).threadRunning = false ∧
    (scraperStop s).isTracking = false ∧
    (scraperStop s).hasDriver = false :=
  ⟨rfl, rfl, rfl, rfl, rfl⟩

/-- C9.  `start_live_tracking()` on a tracker that is already tracking is
a no-op: the state — including the stop event, the thread-running flag
and the count of threads ever spawned — is returned unchanged. -/
theorem C9_start_tracking_noop (s : ScraperState) (h : s.isTracking = true) :
    startLiveTracking s = s := by
  simp [startLiveTracking, h]

/-- Witness for C9 at a concrete already-tracking scraper. -/
theorem C9_start_tracking_noop_witness :
    startLiveTracking
        { matchId := "m1", matchUrl := "u", hasDriver := true,
          isTracking := true, stopEventSet := false, threadRunning := true,
          threadsSpawned := 1 } =
      { matchId := "m1", matchUrl := "u", hasDriver := true,
        isTracking := true, stopEventSet := false, threadRunning := true,
        threadsSpawned := 1 } :=
  C9_start_tracking_noop _ rfl

/-- C10.  `DataStore.update_match_status` for an id absent from the stored
list returns normally and stores the list back unchanged: every record,
including every status, is exactly as before. -/
theorem C10_update_absent_id_frame (id : String) (st : MatchStatus)
    (l : List MatchRec) (h : id ∉ l.map (fun m => m.id)) :
    updateStatusInList id st l = l := by
  induction l with
  | nil => rfl
  | cons m ms ih =>
      simp only [List.map_cons, List.mem_cons, not_or] at h
      rw [updateStatusInList, if_neg (fun hh => h.1 hh.symm), ih h.2]

/-- Witness for C10 at a concrete stored list and absent id. -/
theorem C10_update_absent_id_frame_witness :
    updateStatusInList "zz" .LIVE
        [{ id := "a", teams := "t", fmt := "T20", dateTime := 0, url := "u",
           status := .UPCOMING },
         { id := "b", teams := "t", fmt := "ODI", dateTime := 9, url := "v",
           status := .LIVE }] =
      [{ id := "a", teams := "t", fmt := "T20", dateTime := 0, url := "u",
         status := .UPCOMING },
       { id := "b", teams := "t", fmt := "ODI", dateTime := 9, url := "v",
         status := .LIVE }] :=
  C10_update_absent_id_frame "zz" .LIVE _ (by decide)

/-! ## Retry-loop and tick-abort lemmas -/

theorem initLoop_spec (ok : Nat → Bool) :
    ∀ fuel attempt, (initLoop ok fuel attempt).attempts ≤ attempt + fuel + 1 ∧
      (initLoop ok fuel attempt).totalSleep =
        5 * ((initLoop ok fuel attempt).attempts - 1) := by
  intro fuel
  induction fuel with
  | zero =>
      intro attempt
      rw [initLoop]
      split <;> simp
  | succ f ih =>
      intro attempt
      rw [initLoop]
      split
      · simp
      · have h := ih (attempt + 1)
        refine ⟨le_trans h.1 (by omega), h.2⟩

theorem runMatches_nil (env : TickEnv) (now : Int) (acc : TickAcc) :
    runMatches env now [] acc = ([], acc) := rfl

theorem runMatches_cons (env : TickEnv) (now : Int) (m : MatchRec)
    (ms : List MatchRec) (acc : TickAcc) :
    runMatches env now (m :: ms) acc =
      ((stepMatch env now m acc).1 ::
         (runMatches env now ms (stepMatch env now m acc).2).1,
       (runMatches env now ms (stepMatch env now m acc).2).2) := rfl

theorem runMatches_of_aborted (env : TickEnv) (now : Int) :
    ∀ (ms : List MatchRec) (acc : TickAcc), acc.aborted = true →
      runMatches env now ms acc = (ms, acc) := by
  intro ms
  induction ms with
  | nil => intro acc _; rfl
  | cons m ms ih =>
      intro acc h
      have hs : stepMatch env now m acc = (m, acc) := by
        rw [stepMatch, if_pos h]
      rw [runMatches]
      simp only [hs, ih acc h]

theorem stepMatch_abort (env : TickEnv) (now : Int) (m : MatchRec)
    (acc : TickAcc) (hna : acc.aborted = false)
    (h1 : m.dateTime - now ≤ 300) (h2 : now < m.dateTime)
    (h3 : hasKey acc.scrapers m.id = false) (h4 : env.initOk m.id = false) :
    stepMatch env now m acc = (m, { acc with aborted := true }) := by
  have hb : branch1 env now m acc = (m, { acc with aborted := true }) := by
    rw [branch1, if_pos ⟨h1, h2, h3⟩, if_neg (by simp [h4])]
  rw [stepMatch, if_neg (by simp [hna])]
  simp [hb]

theorem runMatches_abort (env : TickEnv) (now : Int) (m : MatchRec)
    (ms : List MatchRec) (acc : TickAcc) (hna : acc.aborted = false)
    (h1 : m.dateTime - now ≤ 300) (h2 : now < m.dateTime)
    (h3 : hasKey acc.scrapers m.id = false) (h4 : env.initOk m.id = false) :
    runMatches env now (m :: ms) acc = (m :: ms, { acc with aborted := true }) := by
  rw [runMatches_cons]
  simp only [stepMatch_abort env now m acc hna h1 h2 h3 h4,
    runMatches_of_aborted env now ms { acc with aborted := true } rfl]

theorem liveLoop_sum (fail : Nat → Bool) :
    ∀ (k i : Nat) (log : WorkerLog),
      (liveLoop fail k i log).pulls + (liveLoop fail k i log).errorsLogged =
        log.pulls + log.errorsLogged + k := by
  intro k
  induction k with
  | zero => intro i log; rfl
  | succ k ih =>
      intro i log
      rw [liveLoop, ih]
      cases h : fail i <;> simp [h] <;> omega

/-! ## Claim theorems: initialization retry (C4) -/

/-- C4 counterexample: with every attempt failing, `initialize` performs
four full attempts (`retry_count` runs 0,1,2,3 against `max_retries = 3`),
not at most three as claimed. -/
theorem C4_counterexample :
    ¬ (scraperInitialize (fun _ => false)).attempts ≤ 3 := by decide

/-- C4 amended.  Provisioning performs at most **4** attempts of full
session initialization (one initial attempt plus up to `max_retries = 3`
retries) with a fixed 5-second backoff between consecutive attempts
(total sleep `5 * (attempts - 1)`); if the first four attempts all fail
the error is surfaced (`success = false` after exactly 4 attempts and 15
seconds of backoff); and in the scheduler's tick a provisioning failure
raises before the handle is registered, so the whole remaining loop is
skipped with the scrapers map exactly as it was — in particular no entry
for the match is left registered. -/
theorem C4_retry_contract (ok : Nat → Bool) (env : TickEnv) (now : Int)
    (m : MatchRec) (ms : List MatchRec) (acc : TickAcc)
    (hna : acc.aborted = false) (hfail : env.initOk m.id = false)
    (h1 : m.dateTime - now ≤ 300) (h2 : now < m.dateTime)
    (h3 : hasKey acc.scrapers m.id = false) :
    (scraperInitialize ok).attempts ≤ 4 ∧
    (scraperInitialize ok).totalSleep =
      5 * ((scraperInitialize ok).attempts - 1) ∧
    ((∀ i, i < 4 → ok i = false) →
      scraperInitialize ok = ⟨false, 4, 15⟩) ∧
    runMatches env now (m :: ms) acc =
      (m :: ms, { acc with aborted := true }) := by
  refine ⟨(initLoop_spec ok 3 0).1, (initLoop_spec ok 3 0).2, ?_, ?_⟩
  · intro h
    simp [scraperInitialize, initLoop, h 0 (by omega), h 1 (by omega),
      h 2 (by omega), h 3 (by omega)]
  · exact runMatches_abort env now m ms acc hna h1 h2 h3 hfail

/-- Witness for C4 at a concrete always-failing initialization, a match
five minutes from start, and an empty scrapers map. -/
theorem C4_retry_contract_witness :
    (scraperInitialize (fun _ => false)).attempts ≤ 4 ∧
    (scraperInitialize (fun _ => false)).totalSleep =
      5 * ((scraperInitialize (fun _ => false)).attempts - 1) ∧
    ((∀ i, i < 4 → (fun _ => false) i = false) →
      scraperInitialize (fun _ => false) = ⟨false, 4, 15⟩) ∧
    runMatches ⟨fun _ => false, fun _ => false⟩ 0
        [{ id := "m1", teams := "t", fmt := "T20", dateTime := 100,
           url := "u", status := .UPCOMING }] ⟨[], [], [], false⟩ =
      ([{ id := "m1", teams := "t", fmt := "T20", dateTime := 100,
          url := "u", status := .UPCOMING }], ⟨[], [], [], true⟩) :=
  C4_retry_contract (fun _ => false) ⟨fun _ => false, fun _ => false⟩ 0
    _ [] _ rfl rfl (by decide) (by decide) rfl

/-! ## Claim theorems: the live-polling loop (C5) -/

/-- C5 counterexample: when the **initial** immediate pull fails, the
worker exits at once — zero loop iterations, no stop signal involved —
because that first pull sits outside the inner `try` of
`_live_tracking_worker`. -/
theorem C5_counterexample :
    liveWorker (fun _ => true) 5 = (.workerFailed, ⟨0, 0⟩) := rfl

/-- C5 amended.  Once the initial immediate pull succeeds, the polling
loop is failure-proof: every in-loop extraction failure is logged and
swallowed and the loop still executes all `k` iterations up to the stop
signal, exiting only because the signal was observed; but a failure of
the initial pull (outside the inner `try`) terminates the worker before
the loop starts. -/
theorem C5_loop_survives_failures (fail : Nat → Bool) (k : Nat)
    (h : fail 0 = false) :
    (liveWorker fail k).1 = .stoppedBySignal ∧
    (liveWorker fail k).2.pulls + (liveWorker fail k).2.errorsLogged =
      k + 1 := by
  rw [liveWorker, if_neg (by simp [h])]
  refine ⟨rfl, ?_⟩
  have hs := liveLoop_sum fail k 1 ⟨1, 0⟩
  simpa [Nat.add_comm] using hs

/-- Witness for C5: alternating in-loop failures, five iterations before
the stop signal, worker still exits by signal having run them all. -/
theorem C5_loop_survives_failures_witness :
    (liveWorker (fun n => decide (n % 2 = 1)) 5).1 = .stoppedBySignal ∧
    (liveWorker (fun n => decide (n % 2 = 1)) 5).2.pulls +
      (liveWorker (fun n => decide (n % 2 = 1)) 5).2.errorsLogged = 5 + 1 :=
  C5_loop_survives_failures (fun n => decide (n % 2 = 1)) 5 (by decide)

/-! ## Discovery refresh (C6) -/

theorem processMatches_cons (parse : String → Option Int) (r : RawMatch)
    (rs : List RawMatch) :
    processMatches parse (r :: rs) =
      match parse r.dateTime with
      | some t =>
          ({ id := r.id, teams := r.teams, fmt := r.fmt, dateTime := t,
             url := r.url, status := .UPCOMING } :: (processMatches parse rs).1,
           (processMatches parse rs).2)
      | none => ((processMatches parse rs).1, (processMatches parse rs).2 + 1) :=
  rfl

theorem processMatches_spec (parse : String → Option Int) :
    ∀ rs : List RawMatch,
      (processMatches parse rs).1.length + (processMatches parse rs).2 =
        rs.length ∧
      (processMatches parse rs).2 =
        rs.countP (fun r => (parse r.dateTime).isNone) := by
  intro rs
  induction rs with
  | nil => exact ⟨rfl, rfl⟩
  | cons r rs ih =>
      rw [processMatches_cons]
      cases h : parse r.dateTime <;>
        simp [h, List.countP_cons, ih.2] <;> omega

/-- C6.  A discovery refresh whose source has exactly one record with an
unparseable date/time drops exactly that record: the refreshed in-memory
list has `N - 1` records, the same list is persisted, and exactly one
warning is logged.  `updateMatchList` is a total function of its inputs,
so the refresh always returns to its caller. -/
theorem C6_refresh_drops_unparseable (parse : String → Option Int)
    (raws : List RawMatch) (s : SchedulerState)
    (hd : s.hasDriver = true) (hr : s.isRunning = true)
    (h1 : raws.countP (fun r => (parse r.dateTime).isNone) = 1) :
    (updateMatchList parse raws s).matchList.length = raws.length - 1 ∧
    (updateMatchList parse raws s).storedList =
      (updateMatchList parse raws s).matchList ∧
    (processMatches parse raws).2 = 1 := by
  have hspec := processMatches_spec parse raws
  have hu : updateMatchList parse raws s =
      { s with matchList := (processMatches parse raws).1,
               storedList := (processMatches parse raws).1 } := by
    rw [updateMatchList, if_neg (by simp [hd, hr])]
  rw [hu]
  refine ⟨?_, rfl, hspec.2.trans h1⟩
  show (processMatches parse raws).1.length = raws.length - 1
  have := hspec.1
  rw [hspec.2, h1] at this
  omega

/-- Witness for C6: three source records, the middle one unparseable,
against a running scheduler with an open driver. -/
theorem C6_refresh_drops_unparseable_witness :
    (updateMatchList (fun t => if t = "bad" then none else some 7)
        [{ id := "a", teams := "t", fmt := "T20", dateTime := "ok", url := "u" },
         { id := "b", teams := "t", fmt := "ODI", dateTime := "bad", url := "v" },
         { id := "c", teams := "t", fmt := "Test", dateTime := "ok", url := "w" }]
        ⟨[], [], true, true, [], []⟩).matchList.length = 3 - 1 ∧
    (updateMatchList (fun t => if t = "bad" then none else some 7)
        [{ id := "a", teams := "t", fmt := "T20", dateTime := "ok", url := "u" },
         { id := "b", teams := "t", fmt := "ODI", dateTime := "bad", url := "v" },
         { id := "c", teams := "t", fmt := "Test", dateTime := "ok", url := "w" }]
        ⟨[], [], true, true, [], []⟩).storedList =
      (updateMatchList (fun t => if t = "bad" then none else some 7)
        [{ id := "a", teams := "t", fmt := "T20", dateTime := "ok", url := "u" },
         { id := "b", teams := "t", fmt := "ODI", dateTime := "bad", url := "v" },
         { id := "c", teams := "t", fmt := "Test", dateTime := "ok", url := "w" }]
        ⟨[], [], true, true, [], []⟩).matchList ∧
    (processMatches (fun t => if t = "bad" then none else some 7)
        [{ id := "a", teams := "t", fmt := "T20", dateTime := "ok", url := "u" },
         { id := "b", teams := "t", fmt := "ODI", dateTime := "bad", url := "v" },
         { id := "c", teams := "t", fmt := "Test", dateTime := "ok", url := "w" }]).2 = 1 :=
  C6_refresh_drops_unparseable _ _ _ rfl rfl (by decide)

/-! ## Structural lemmas about one tick -/

theorem stepMatch_eq (env : TickEnv) (now : Int) (m : MatchRec) (acc : TickAcc) :
    stepMatch env now m acc =
      if acc.aborted then (m, acc)
      else if (branch1 env now m acc).2.aborted then branch1 env now m acc
      else
        branch3 env
          (branch2 now (branch1 env now m acc).1 (branch1 env now m acc).2).1
          (branch2 now (branch1 env now m acc).1 (branch1 env now m acc).2).2 :=
  rfl

theorem branch1_fst_id (env : TickEnv) (now : Int) (m : MatchRec)
    (acc : TickAcc) : (branch1 env now m acc).1.id = m.id := by
  rw [branch1]
  split
  · split <;> rfl
  · rfl

theorem branch2_fst_id (now : Int) (m : MatchRec) (acc : TickAcc) :
    (branch2 now m acc).1.id = m.id := by
  rw [branch2]
  split <;> rfl

theorem branch3_fst_id (env : TickEnv) (m : MatchRec) (acc : TickAcc) :
    (branch3 env m acc).1.id = m.id := by
  rw [branch3]
  split
  · split <;> rfl
  · rfl

theorem stepMatch_fst_id (env : TickEnv) (now : Int) (m : MatchRec)
    (acc : TickAcc) : (stepMatch env now m acc).1.id = m.id := by
  rw [stepMatch_eq]
  split
  · rfl
  · split
    · exact branch1_fst_id env now m acc
    · rw [branch3_fst_id, branch2_fst_id, branch1_fst_id]

theorem branch1_not_mem {env : TickEnv} {now : Int} {m : MatchRec}
    {acc : TickAcc} {x : String} (h : x ∉ scraperIds acc.scrapers)
    (hx : x = m.id → ¬ now < m.dateTime) :
    x ∉ scraperIds (branch1 env now m acc).2.scrapers := by
  rw [branch1]
  split
  case isTrue hc =>
    split
    · simp only [mem_scraperIds_insert, not_or]
      exact ⟨fun hxe => absurd hc.2.1 (hx hxe), h⟩
    · exact h
  case isFalse _ => exact h

theorem branch2_not_mem {now : Int} {m : MatchRec} {acc : TickAcc}
    {x : String} (h : x ∉ scraperIds acc.scrapers) :
    x ∉ scraperIds (branch2 now m acc).2.scrapers := by
  rw [branch2]
  split
  case isTrue hc =>
    simp only [mem_scraperIds_insert, not_or]
    refine ⟨?_, h⟩
    rintro rfl
    exact h (hasKey_iff_mem.mp hc.2.1)
  case isFalse _ => exact h

theorem branch3_not_mem {env : TickEnv} {m : MatchRec} {acc : TickAcc}
    {x : String} (h : x ∉ scraperIds acc.scrapers) :
    x ∉ scraperIds (branch3 env m acc).2.scrapers := by
  rw [branch3]
  split
  · split
    · simp only [mem_scraperIds_remove]
      rintro ⟨hmem, _⟩
      exact h hmem
    · exact h
  · exact h

theorem stepMatch_not_mem {env : TickEnv} {now : Int} {m : MatchRec}
    {acc : TickAcc} {x : String} (h : x ∉ scraperIds acc.scrapers)
    (hx : x = m.id → ¬ now < m.dateTime) :
    x ∉ scraperIds (stepMatch env now m acc).2.scrapers := by
  rw [stepMatch_eq]
  split
  · exact h
  · split
    · exact branch1_not_mem h hx
    · exact branch3_not_mem (branch2_not_mem (branch1_not_mem h hx))

theorem branch1_keeps_in {env : TickEnv} {now : Int} {m : MatchRec}
    {acc : TickAcc} {x : String} (h : x ∈ scraperIds acc.scrapers) :
    x ∈ scraperIds (branch1 env now m acc).2.scrapers := by
  rw [branch1]
  split
  · split
    · exact mem_scraperIds_insert.mpr (Or.inr h)
    · exact h
  · exact h

theorem branch2_keeps_in {now : Int} {m : MatchRec} {acc : TickAcc}
    {x : String} (h : x ∈ scraperIds acc.scrapers) :
    x ∈ scraperIds (branch2 now m acc).2.scrapers := by
  rw [branch2]
  split
  · exact mem_scraperIds_insert.mpr (Or.inr h)
  · exact h

theorem branch3_keeps_in {env : TickEnv} {m : MatchRec} {acc : TickAcc}
    {x : String} (h : x ∈ scraperIds acc.scrapers) (hne : x ≠ m.id) :
    x ∈ scraperIds (branch3 env m acc).2.scrapers := by
  rw [branch3]
  split
  · split
    · exact mem_scraperIds_remove.mpr ⟨h, hne⟩
    · exact h
  · exact h

theorem stepMatch_keeps_in {env : TickEnv} {now : Int} {m : MatchRec}
    {acc : TickAcc} {x : String} (h : x ∈ scraperIds acc.scrapers)
    (hne : x ≠ m.id) :
    x ∈ scraperIds (stepMatch env now m acc).2.scrapers := by
  rw [stepMatch_eq]
  split
  · exact h
  · split
    · exact branch1_keeps_in h
    · refine branch3_keeps_in (branch2_keeps_in (branch1_keeps_in h)) ?_
      rw [branch2_fst_id, branch1_fst_id]
      exact hne

theorem stepMatch_skip {env : TickEnv} {now : Int} {m : MatchRec}
    {acc : TickAcc} (h3 : hasKey acc.scrapers m.id = false)
    (ht : ¬ now < m.dateTime) :
    stepMatch env now m acc = (m, acc) := by
  have hb1 : branch1 env now m acc = (m, acc) := by
    rw [branch1, if_neg]
    rintro ⟨_, hlt, _⟩
    exact ht hlt
  have hb2 : branch2 now m acc = (m, acc) := by
    rw [branch2, if_neg]
    rintro ⟨_, hk, _⟩
    rw [h3] at hk
    exact Bool.false_ne_true hk
  have hb3 : branch3 env m acc = (m, acc) := by
    rw [branch3, if_neg]
    rintro ⟨_, hk⟩
    rw [h3] at hk
    exact Bool.false_ne_true hk
  rw [stepMatch_eq, hb1]
  show (if acc.aborted = true then (m, acc)
    else if acc.aborted = true then (m, acc)
    else branch3 env (branch2 now m acc).1 (branch2 now m acc).2) = (m, acc)
  rw [hb2]
  show (if acc.aborted = true then (m, acc)
    else if acc.aborted = true then (m, acc) else branch3 env m acc) = (m, acc)
  rw [hb3, ite_self, ite_self]

theorem runMatches_length (env : TickEnv) (now : Int) :
    ∀ (ms : List MatchRec) (acc : TickAcc),
      (runMatches env now ms acc).1.length = ms.length := by
  intro ms
  induction ms with
  | nil => intro acc; rfl
  | cons m ms ih => intro acc; rw [runMatches_cons]; simp [ih]

theorem runMatches_append (env : TickEnv) (now : Int) :
    ∀ (l1 l2 : List MatchRec) (acc : TickAcc),
      runMatches env now (l1 ++ l2) acc =
        ((runMatches env now l1 acc).1 ++
           (runMatches env now l2 (runMatches env now l1 acc).2).1,
         (runMatches env now l2 (runMatches env now l1 acc).2).2) := by
  intro l1
  induction l1 with
  | nil => intro l2 acc; simp [runMatches_nil]
  | cons m ms ih =>
      intro l2 acc
      simp only [List.cons_append, runMatches_cons, ih]

theorem runMatches_not_mem (env : TickEnv) (now : Int) :
    ∀ (ms : List MatchRec) (acc : TickAcc) (x : String),
      x ∉ scraperIds acc.scrapers →
      (∀ m ∈ ms, m.id = x → ¬ now < m.dateTime) →
      x ∉ scraperIds (runMatches env now ms acc).2.scrapers := by
  intro ms
  induction ms with
  | nil => intro acc x h _; exact h
  | cons m ms ih =>
      intro acc x h hall
      rw [runMatches_cons]
      exact ih (stepMatch env now m acc).2 x
        (stepMatch_not_mem h
          (fun hxe => hall m (List.mem_cons_self m ms) hxe.symm))
        (fun m' hm' => hall m' (List.mem_cons_of_mem m hm'))

theorem runMatches_keeps_in (env : TickEnv) (now : Int) :
    ∀ (ms : List MatchRec) (acc : TickAcc) (x : String),
      x ∈ scraperIds acc.scrapers →
      (∀ m ∈ ms, m.id ≠ x) →
      x ∈ scraperIds (runMatches env now ms acc).2.scrapers := by
  intro ms
  induction ms with
  | nil => intro acc x h _; exact h
  | cons m ms ih =>
      intro acc x h hall
      rw [runMatches_cons]
      exact ih (stepMatch env now m acc).2 x
        (stepMatch_keeps_in h
          (fun hxe => hall m (List.mem_cons_self m ms) hxe.symm))
        (fun m' hm' => hall m' (List.mem_cons_of_mem m hm'))

/-- A match already past its scheduled start with no registered scraper is
invisible to a tick: none of the three conditionals can fire for it (the
pre-roll conditional needs a future start, the other two need a registered
handle), and no other match under distinct ids can register its id. -/
theorem tick_started_match_untouched (env : TickEnv) (now : Int)
    (s : SchedulerState) (pre post : List MatchRec) (m : MatchRec)
    (hml : s.matchList = pre ++ m :: post)
    (hpre : ∀ m' ∈ pre, m'.id ≠ m.id)
    (hpost : ∀ m' ∈ post, m'.id ≠ m.id)
    (hstarted : m.dateTime ≤ now)
    (hnk : hasKey s.activeScrapers m.id = false) :
    ∃ pre' post',
      (checkMatchStatus env now s).matchList = pre' ++ m :: post' ∧
      pre'.length = pre.length ∧
      hasKey (checkMatchStatus env now s).activeScrapers m.id = false := by
  by_cases hr : s.isRunning = false
  · rw [checkMatchStatus, if_pos hr]
    exact ⟨pre, post, hml, rfl, hnk⟩
  · have hout0 : m.id ∉ scraperIds
        ((⟨s.activeScrapers, s.storedList, s.stoppedLog, false⟩ : TickAcc).scrapers) :=
      hasKey_false_iff.mp hnk
    have h1 : m.id ∉ scraperIds
        (runMatches env now pre
          ⟨s.activeScrapers, s.storedList, s.stoppedLog, false⟩).2.scrapers :=
      runMatches_not_mem env now pre _ m.id hout0
        (fun m' hm' hid => absurd hid (hpre m' hm'))
    have hstep : stepMatch env now m
        (runMatches env now pre
          ⟨s.activeScrapers, s.storedList, s.stoppedLog, false⟩).2 =
        (m, (runMatches env now pre
          ⟨s.activeScrapers, s.storedList, s.stoppedLog, false⟩).2) :=
      stepMatch_skip (hasKey_false_iff.mpr h1) (not_lt.mpr hstarted)
    have h2 : m.id ∉ scraperIds
        (runMatches env now post
          (runMatches env now pre
            ⟨s.activeScrapers, s.storedList, s.stoppedLog, false⟩).2).2.scrapers :=
      runMatches_not_mem env now post _ m.id h1
        (fun m' hm' hid => absurd hid (hpost m' hm'))
    refine ⟨(runMatches env now pre
        ⟨s.activeScrapers, s.storedList, s.stoppedLog, false⟩).1,
      (runMatches env now post
        (runMatches env now pre
          ⟨s.activeScrapers, s.storedList, s.stoppedLog, false⟩).2).1,
      ?_, ?_, ?_⟩
    · show (checkMatchStatus env now s).matchList = _
      rw [checkMatchStatus, if_neg hr]
      show (runMatches env now s.matchList
        ⟨s.activeScrapers, s.storedList, s.stoppedLog, false⟩).1 = _
      rw [hml, runMatches_append, runMatches_cons, hstep]
    · exact runMatches_length env now pre _
    · show hasKey (checkMatchStatus env now s).activeScrapers m.id = false
      rw [checkMatchStatus, if_neg hr]
      show hasKey (runMatches env now s.matchList
        ⟨s.activeScrapers, s.storedList, s.stoppedLog, false⟩).2.scrapers m.id = false
      rw [hml, runMatches_append, runMatches_cons, hstep]
      exact hasKey_false_iff.mpr h2

/-! ## Claim theorems: late provisioning (C1) -/

/-- C1 counterexample: a single `UPCOMING` match whose scheduled start
(time 0) is already past (`now = 100`), with no tracker handle and with a
provisioning oracle that always succeeds.  The tick provisions nothing —
the active map stays empty and the match stays `UPCOMING` — refuting the
claim that a tick provisions such a match late. -/
theorem C1_counterexample :
    (checkMatchStatus ⟨fun _ => true, fun _ => true⟩ 100
        ⟨[{ id := "m1", teams := "t", fmt := "T20", dateTime := 0, url := "u",
            status := .UPCOMING }], [], true, true, [], []⟩).activeScrapers =
      [] ∧
    (checkMatchStatus ⟨fun _ => true, fun _ => true⟩ 100
        ⟨[{ id := "m1", teams := "t", fmt := "T20", dateTime := 0, url := "u",
            status := .UPCOMING }], [], true, true, [], []⟩).matchList =
      [{ id := "m1", teams := "t", fmt := "T20", dateTime := 0, url := "u",
         status := .UPCOMING }] :=
  ⟨rfl, rfl⟩

/-- C1 amended.  A match whose `scheduledStart` is already in the past and
for which no tracker handle exists is **never** provisioned by a
transition-evaluation tick: the pre-roll conditional requires the start to
be strictly in the future, and the remaining conditionals require an
existing handle, so the match record survives every tick unchanged, in
place, with still no entry in the active-tracker map — the
"missed the window" state is permanent. -/
theorem C1_no_late_provisioning (env : TickEnv) (now : Int)
    (s : SchedulerState) (pre post : List MatchRec) (m : MatchRec)
    (hml : s.matchList = pre ++ m :: post)
    (hnodup : (s.matchList.map (fun m => m.id)).Nodup)
    (hstarted : m.dateTime ≤ now)
    (hnk : hasKey s.activeScrapers m.id = false) :
    ∃ pre' post',
      (checkMatchStatus env now s).matchList = pre' ++ m :: post' ∧
      pre'.length = pre.length ∧
      hasKey (checkMatchStatus env now s).activeScrapers m.id = false := by
  rw [hml, List.map_append, List.map_cons] at hnodup
  obtain ⟨-, hmid, hdisj⟩ := List.nodup_append.mp hnodup
  have hpre : ∀ m' ∈ pre, m'.id ≠ m.id := by
    intro m' hm' heq
    exact hdisj (List.mem_map_of_mem _ hm') (heq ▸ List.mem_cons_self _ _)
  have hpost : ∀ m' ∈ post, m'.id ≠ m.id := by
    intro m' hm' heq
    exact (List.nodup_cons.mp hmid).1 (heq ▸ List.mem_map_of_mem _ hm')
  exact tick_started_match_untouched env now s pre post m hml hpre hpost
    hstarted hnk

/-- Witness for C1's amended statement at the counterexample scenario. -/
theorem C1_no_late_provisioning_witness :
    ∃ pre' post',
      (checkMatchStatus ⟨fun _ => true, fun _ => true⟩ 100
          ⟨[{ id := "m1", teams := "t", fmt := "T20", dateTime := 0,
              url := "u", status := .UPCOMING }], [], true, true, [],
            []⟩).matchList =
        pre' ++ { id := "m1", teams := "t", fmt := "T20", dateTime := 0,
                  url := "u", status := .UPCOMING } :: post' ∧
      pre'.length = ([] : List MatchRec).length ∧
      hasKey (checkMatchStatus ⟨fun _ => true, fun _ => true⟩ 100
          ⟨[{ id := "m1", teams := "t", fmt := "T20", dateTime := 0,
              url := "u", status := .UPCOMING }], [], true, true, [],
            []⟩).activeScrapers "m1" = false :=
  C1_no_late_provisioning _ 100 _ [] [] _ rfl (by decide) (by decide) rfl

/-! ## Claim theorems: failure isolation inside a tick (C3) -/

/-- C3 counterexample: two matches — the first within the pre-roll window
with provisioning failing, the second `LIVE` with a registered tracker
whose `check_if_match_ended` reports `true`.  After the tick the second
match is still `LIVE` and still registered: it was never evaluated,
because the first match's exception aborted the whole loop. -/
theorem C3_counterexample :
    (checkMatchStatus ⟨fun _ => false, fun _ => true⟩ 0
        ⟨[{ id := "m1", teams := "t", fmt := "T20", dateTime := 100,
            url := "u", status := .UPCOMING },
          { id := "m2", teams := "t", fmt := "T20", dateTime := -50,
            url := "v", status := .LIVE }],
         [("m2", { matchId := "m2", matchUrl := "v", hasDriver := true,
                   isTracking := true, stopEventSet := false,
                   threadRunning := true, threadsSpawned := 1 })],
         true, true, [], []⟩).matchList =
      [{ id := "m1", teams := "t", fmt := "T20", dateTime := 100,
         url := "u", status := .UPCOMING },
       { id := "m2", teams := "t", fmt := "T20", dateTime := -50,
         url := "v", status := .LIVE }] ∧
    scraperIds (checkMatchStatus ⟨fun _ => false, fun _ => true⟩ 0
        ⟨[{ id := "m1", teams := "t", fmt := "T20", dateTime := 100,
            url := "u", status := .UPCOMING },
          { id := "m2", teams := "t", fmt := "T20", dateTime := -50,
            url := "v", status := .LIVE }],
         [("m2", { matchId := "m2", matchUrl := "v", hasDriver := true,
                   isTracking := true, stopEventSet := false,
                   threadRunning := true, threadsSpawned := 1 })],
         true, true, [], []⟩).activeScrapers = ["m2"] :=
  ⟨rfl, rfl⟩

/-- C3 amended.  One match's processing error does **not** leave later
matches evaluated: at whatever point of the loop the error strikes (any
accumulator `acc`), the exception aborts the remainder of the tick — the
erroring match and every later match come back verbatim, the scrapers map
and the store keep exactly the state already accumulated — and the
exception is caught at the tick boundary, so the scheduler itself
survives. -/
theorem C3_failure_aborts_rest_of_tick (env : TickEnv) (now : Int)
    (m : MatchRec) (ms : List MatchRec) (acc : TickAcc)
    (hna : acc.aborted = false)
    (h1 : m.dateTime - now ≤ 300) (h2 : now < m.dateTime)
    (h3 : hasKey acc.scrapers m.id = false) (h4 : env.initOk m.id = false) :
    (runMatches env now (m :: ms) acc).1 = m :: ms ∧
    (runMatches env now (m :: ms) acc).2.scrapers = acc.scrapers ∧
    (runMatches env now (m :: ms) acc).2.stored = acc.stored ∧
    (runMatches env now (m :: ms) acc).2.aborted = true := by
  rw [runMatches_abort env now m ms acc hna h1 h2 h3 h4]
  exact ⟨rfl, rfl, rfl, rfl⟩

/-- Witness for C3's amended statement: the failing match aborts the loop
with the live-and-ended match after it returned untouched. -/
theorem C3_failure_aborts_rest_of_tick_witness :
    (runMatches ⟨fun _ => false, fun _ => true⟩ 0
        [{ id := "m1", teams := "t", fmt := "T20", dateTime := 100,
           url := "u", status := .UPCOMING },
         { id := "m2", teams := "t", fmt := "T20", dateTime := -50,
           url := "v", status := .LIVE }]
        ⟨[("m2", { matchId := "m2", matchUrl := "v", hasDriver := true,
                   isTracking := true, stopEventSet := false,
                   threadRunning := true, threadsSpawned := 1 })],
          [], [], false⟩).1 =
      [{ id := "m1", teams := "t", fmt := "T20", dateTime := 100,
         url := "u", status := .UPCOMING },
       { id := "m2", teams := "t", fmt := "T20", dateTime := -50,
         url := "v", status := .LIVE }] ∧
    (runMatches ⟨fun _ => false, fun _ => true⟩ 0
        [{ id := "m1", teams := "t", fmt := "T20", dateTime := 100,
           url := "u", status := .UPCOMING },
         { id := "m2", teams := "t", fmt := "T20", dateTime := -50,
           url := "v", status := .LIVE }]
        ⟨[("m2", { matchId := "m2", matchUrl := "v", hasDriver := true,
                   isTracking := true, stopEventSet := false,
                   threadRunning := true, threadsSpawned := 1 })],
          [], [], false⟩).2.scrapers =
      [("m2", { matchId := "m2", matchUrl := "v", hasDriver := true,
                isTracking := true, stopEventSet := false,
                threadRunning := true, threadsSpawned := 1 })] ∧
    (runMatches ⟨fun _ => false, fun _ => true⟩ 0
        [{ id := "m1", teams := "t", fmt := "T20", dateTime := 100,
           url := "u", status := .UPCOMING },
         { id := "m2", teams := "t", fmt := "T20", dateTime := -50,
           url := "v", status := .LIVE }]
        ⟨[("m2", { matchId := "m2", matchUrl := "v", hasDriver := true,
                   isTracking := true, stopEventSet := false,
                   threadRunning := true, threadsSpawned := 1 })],
          [], [], false⟩).2.stored = [] ∧
    (runMatches ⟨fun _ => false, fun _ => true⟩ 0
        [{ id := "m1", teams := "t", fmt := "T20", dateTime := 100,
           url := "u", status := .UPCOMING },
         { id := "m2", teams := "t", fmt := "T20", dateTime := -50,
           url := "v", status := .LIVE }]
        ⟨[("m2", { matchId := "m2", matchUrl := "v", hasDriver := true,
                   isTracking := true, stopEventSet := false,
                   threadRunning := true, threadsSpawned := 1 })],
          [], [], false⟩).2.aborted = true :=
  C3_failure_aborts_rest_of_tick _ 0 _ _ _ rfl (by decide) (by decide) rfl rfl

/-! ## The tracker-handle invariant under one tick (C2) -/

theorem mem_middle_exchange {ctx rest : List MatchRec} {m m' m₀ : MatchRec}
    (h : m₀ ∈ ctx ++ m :: rest) (hne : m₀ ≠ m) : m₀ ∈ ctx ++ m' :: rest := by
  rcases List.mem_append.mp h with hc | hmr
  · exact List.mem_append.mpr (Or.inl hc)
  · rcases List.mem_cons.mp hmr with rfl | hr
    · exact absurd rfl hne
    · exact List.mem_append.mpr (Or.inr (List.mem_cons_of_mem _ hr))

theorem branch1_inv {env : TickEnv} {now : Int} {m : MatchRec} {acc : TickAcc}
    {ctx rest : List MatchRec}
    (hInv : trackerInvariant (ctx ++ m :: rest) acc.scrapers) :
    trackerInvariant (ctx ++ (branch1 env now m acc).1 :: rest)
      (branch1 env now m acc).2.scrapers := by
  rw [branch1]
  split
  case isTrue hc =>
    split
    case isTrue hok =>
      dsimp only
      constructor
      · intro x hx
        rcases mem_scraperIds_insert.mp hx with rfl | hx'
        · exact ⟨{ m with status := .UPCOMING },
            List.mem_append.mpr (Or.inr (List.mem_cons_self _ _)), rfl,
            Or.inl rfl⟩
        · obtain ⟨m₀, hm₀, hid, hst⟩ := hInv.1 x hx'
          by_cases hx0 : m₀ = m
          · subst hx0
            exact ⟨{ m₀ with status := .UPCOMING },
              List.mem_append.mpr (Or.inr (List.mem_cons_self _ _)), hid,
              Or.inl rfl⟩
          · exact ⟨m₀, mem_middle_exchange hm₀ hx0, hid, hst⟩
      · intro m₀ hm₀ hlive
        by_cases hx0 : m₀ = { m with status := .UPCOMING }
        · rw [hx0] at hlive
          exact absurd hlive (by simp)
        · exact mem_scraperIds_insert.mpr
            (Or.inr (hInv.2 m₀ (mem_middle_exchange hm₀ hx0) hlive))
    case isFalse => exact hInv
  case isFalse _ => exact hInv

theorem branch2_inv {now : Int} {m : MatchRec} {acc : TickAcc}
    {ctx rest : List MatchRec}
    (hInv : trackerInvariant (ctx ++ m :: rest) acc.scrapers) :
    trackerInvariant (ctx ++ (branch2 now m acc).1 :: rest)
      (branch2 now m acc).2.scrapers := by
  rw [branch2]
  split
  case isTrue hc =>
    dsimp only
    constructor
    · intro x hx
      rcases mem_scraperIds_insert.mp hx with rfl | hx'
      · exact ⟨{ m with status := .LIVE },
          List.mem_append.mpr (Or.inr (List.mem_cons_self _ _)), rfl,
          Or.inr rfl⟩
      · obtain ⟨m₀, hm₀, hid, hst⟩ := hInv.1 x hx'
        by_cases hx0 : m₀ = m
        · subst hx0
          exact ⟨{ m₀ with status := .LIVE },
            List.mem_append.mpr (Or.inr (List.mem_cons_self _ _)), hid,
            Or.inr rfl⟩
        · exact ⟨m₀, mem_middle_exchange hm₀ hx0, hid, hst⟩
    · intro m₀ hm₀ hlive
      by_cases hx0 : m₀ = { m with status := .LIVE }
      · rw [hx0]
        exact mem_scraperIds_insert.mpr (Or.inl rfl)
      · exact mem_scraperIds_insert.mpr
          (Or.inr (hInv.2 m₀ (mem_middle_exchange hm₀ hx0) hlive))
  case isFalse _ => exact hInv

theorem branch3_inv {env : TickEnv} {m : MatchRec} {acc : TickAcc}
    {ctx rest : List MatchRec}
    (hInv : trackerInvariant (ctx ++ m :: rest) acc.scrapers)
    (hctx : ∀ m₀ ∈ ctx, m₀.id ≠ m.id)
    (hrest : ∀ m₀ ∈ rest, m₀.id ≠ m.id) :
    trackerInvariant (ctx ++ (branch3 env m acc).1 :: rest)
      (branch3 env m acc).2.scrapers := by
  rw [branch3]
  split
  case isTrue hc =>
    split
    case isTrue hend =>
      dsimp only
      constructor
      · intro x hx
        obtain ⟨hx', hne⟩ := mem_scraperIds_remove.mp hx
        obtain ⟨m₀, hm₀, hid, hst⟩ := hInv.1 x hx'
        by_cases hx0 : m₀ = m
        · exact absurd (hx0 ▸ hid : m.id = x) (fun h => hne h.symm)
        · exact ⟨m₀, mem_middle_exchange hm₀ hx0, hid, hst⟩
      · intro m₀ hm₀ hlive
        have hx0 : m₀ ≠ { m with status := .COMPLETED } := by
          intro h
          rw [h] at hlive
          exact absurd hlive (by simp)
        have hm₀' : m₀ ∈ ctx ++ m :: rest := mem_middle_exchange hm₀ hx0
        have hne : m₀.id ≠ m.id := by
          rcases List.mem_append.mp hm₀ with hcm | hmr
          · exact hctx m₀ hcm
          · rcases List.mem_cons.mp hmr with heq | hrm
            · exact absurd heq hx0
            · exact hrest m₀ hrm
        exact mem_scraperIds_remove.mpr ⟨hInv.2 m₀ hm₀' hlive, hne⟩
    case isFalse => exact hInv
  case isFalse _ => exact hInv

theorem stepMatch_inv {env : TickEnv} {now : Int} {m : MatchRec}
    {acc : TickAcc} {ctx rest : List MatchRec}
    (hInv : trackerInvariant (ctx ++ m :: rest) acc.scrapers)
    (hctx : ∀ m₀ ∈ ctx, m₀.id ≠ m.id)
    (hrest : ∀ m₀ ∈ rest, m₀.id ≠ m.id) :
    trackerInvariant (ctx ++ (stepMatch env now m acc).1 :: rest)
      (stepMatch env now m acc).2.scrapers := by
  rw [stepMatch_eq]
  split
  · exact hInv
  · split
    · exact branch1_inv hInv
    · refine branch3_inv (branch2_inv (branch1_inv hInv)) ?_ ?_
      · rw [branch2_fst_id, branch1_fst_id]
        exact hctx
      · rw [branch2_fst_id, branch1_fst_id]
        exact hrest

theorem runMatches_inv (env : TickEnv) (now : Int) :
    ∀ (ms ctx : List MatchRec) (acc : TickAcc),
      (((ctx ++ ms).map (fun m => m.id)).Nodup) →
      trackerInvariant (ctx ++ ms) acc.scrapers →
      trackerInvariant (ctx ++ (runMatches env now ms acc).1)
        (runMatches env now ms acc).2.scrapers := by
  intro ms
  induction ms with
  | nil =>
      intro ctx acc _ hInv
      rw [runMatches_nil]
      simpa using hInv
  | cons m ms ih =>
      intro ctx acc hnd hInv
      rw [runMatches_cons]
      have hnd' := hnd
      rw [List.map_append, List.map_cons, List.nodup_append] at hnd'
      obtain ⟨-, hmid, hdisj⟩ := hnd'
      have hctx : ∀ m₀ ∈ ctx, m₀.id ≠ m.id := by
        intro m₀ hm₀ heq
        exact hdisj (List.mem_map_of_mem _ hm₀) (heq ▸ List.mem_cons_self _ _)
      have hrest : ∀ m₀ ∈ ms, m₀.id ≠ m.id := by
        intro m₀ hm₀ heq
        exact (List.nodup_cons.mp hmid).1 (heq ▸ List.mem_map_of_mem _ hm₀)
      have hstep := @stepMatch_inv env now m acc ctx ms hInv hctx hrest
      have hassoc : ctx ++ (stepMatch env now m acc).1 :: ms =
          (ctx ++ [(stepMatch env now m acc).1]) ++ ms := by
        simp
      have hnd'' : (((ctx ++ [(stepMatch env now m acc).1]) ++ ms).map
          (fun m => m.id)).Nodup := by
        rw [← hassoc]
        simpa [stepMatch_fst_id] using hnd
      have hrun := ih (ctx ++ [(stepMatch env now m acc).1])
        (stepMatch env now m acc).2 hnd'' (by rw [← hassoc]; exact hstep)
      have hfin : (ctx ++ [(stepMatch env now m acc).1]) ++
          (runMatches env now ms (stepMatch env now m acc).2).1 =
          ctx ++ (stepMatch env now m acc).1 ::
            (runMatches env now ms (stepMatch env now m acc).2).1 := by
        simp
      rw [hfin] at hrun
      exact hrun

/-! ## Claim theorems: the handle invariant (C2) -/

/-- C2 counterexample: a running scheduler tracks `LIVE` match `m2` (one
handle, invariant holds); a discovery refresh returns an empty source
list.  After the refresh the match list is empty but the handle for `m2`
is still registered — a tracker handle for a match id absent from the
refreshed list, violating the invariant. -/
theorem C2_counterexample :
    trackerInvariant
        [{ id := "m2", teams := "t", fmt := "T20", dateTime := -50,
           url := "v", status := .LIVE }]
        [("m2", { matchId := "m2", matchUrl := "v", hasDriver := true,
                  isTracking := true, stopEventSet := false,
                  threadRunning := true, threadsSpawned := 1 })] ∧
    ¬ trackerInvariant
        (updateMatchList (fun _ => some 0) []
          ⟨[{ id := "m2", teams := "t", fmt := "T20", dateTime := -50,
              url := "v", status := .LIVE }],
           [("m2", { matchId := "m2", matchUrl := "v", hasDriver := true,
                     isTracking := true, stopEventSet := false,
                     threadRunning := true, threadsSpawned := 1 })],
           true, true, [], []⟩).matchList
        (updateMatchList (fun _ => some 0) []
          ⟨[{ id := "m2", teams := "t", fmt := "T20", dateTime := -50,
              url := "v", status := .LIVE }],
           [("m2", { matchId := "m2", matchUrl := "v", hasDriver := true,
                     isTracking := true, stopEventSet := false,
                     threadRunning := true, threadsSpawned := 1 })],
           true, true, [], []⟩).activeScrapers := by
  constructor
  · decide
  · decide

/-- C2 amended.  The handle invariant — every registered id belongs to a
listed match with status `UPCOMING` or `LIVE`, and every `LIVE` match has
a registered handle — is preserved by every transition-evaluation tick
(under unique match ids), including ticks that abort mid-way.  It is
**not** maintained by the other scheduler operations: a discovery refresh
can leave a handle registered for an id absent from the refreshed list
(see the counterexample), and `stop()` clears all handles while match
statuses persist. -/
theorem C2_tick_preserves_invariant (env : TickEnv) (now : Int)
    (s : SchedulerState)
    (hnd : (s.matchList.map (fun m => m.id)).Nodup)
    (hInv : trackerInvariant s.matchList s.activeScrapers) :
    trackerInvariant (checkMatchStatus env now s).matchList
      (checkMatchStatus env now s).activeScrapers := by
  by_cases hr : s.isRunning = false
  · rw [checkMatchStatus, if_pos hr]
    exact hInv
  · rw [checkMatchStatus, if_neg hr]
    have h := runMatches_inv env now s.matchList []
      ⟨s.activeScrapers, s.storedList, s.stoppedLog, false⟩
      (by simpa using hnd) (by simpa using hInv)
    simpa using h

/-- Witness for C2's amended statement: the two-match scenario — one match
in its pre-roll window, one `LIVE` and tracked — keeps the invariant
through a tick that completes the live match. -/
theorem C2_tick_preserves_invariant_witness :
    trackerInvariant
      (checkMatchStatus ⟨fun _ => true, fun _ => true⟩ 0
        ⟨[{ id := "m1", teams := "t", fmt := "T20", dateTime := 100,
            url := "u", status := .UPCOMING },
          { id := "m2", teams := "t", fmt := "T20", dateTime := -50,
            url := "v", status := .LIVE }],
         [("m2", { matchId := "m2", matchUrl := "v", hasDriver := true,
                   isTracking := true, stopEventSet := false,
                   threadRunning := true, threadsSpawned := 1 })],
         true, true, [], []⟩).matchList
      (checkMatchStatus ⟨fun _ => true, fun _ => true⟩ 0
        ⟨[{ id := "m1", teams := "t", fmt := "T20", dateTime := 100,
            url := "u", status := .UPCOMING },
          { id := "m2", teams := "t", fmt := "T20", dateTime := -50,
            url := "v", status := .LIVE }],
         [("m2", { matchId := "m2", matchUrl := "v", hasDriver := true,
                   isTracking := true, stopEventSet := false,
                   threadRunning := true, threadsSpawned := 1 })],
         true, true, [], []⟩).activeScrapers :=
  C2_tick_preserves_invariant _ 0 _ (by decide) (by decide)

/-! ## Lemmas for the completion path (C8) -/

theorem branch1_aborted_eq {env : TickEnv} {now : Int} {m : MatchRec}
    {acc : TickAcc} (hok : env.initOk m.id = true) :
    (branch1 env now m acc).2.aborted = acc.aborted := by
  by_cases h1 : m.dateTime - now ≤ 300 ∧ now < m.dateTime ∧
      hasKey acc.scrapers m.id = false
  · rw [branch1, if_pos h1, if_pos hok]
  · rw [branch1, if_neg h1]

theorem branch2_aborted_eq {now : Int} {m : MatchRec} {acc : TickAcc} :
    (branch2 now m acc).2.aborted = acc.aborted := by
  rw [branch2]
  split <;> rfl

theorem branch3_aborted_eq {env : TickEnv} {m : MatchRec} {acc : TickAcc} :
    (branch3 env m acc).2.aborted = acc.aborted := by
  rw [branch3]
  split
  · split <;> rfl
  · rfl

theorem stepMatch_aborted_eq {env : TickEnv} {now : Int} {m : MatchRec}
    {acc : TickAcc} (hinit : ∀ id, env.initOk id = true) :
    (stepMatch env now m acc).2.aborted = acc.aborted := by
  rw [stepMatch_eq]
  split
  · rfl
  · split
    · exact branch1_aborted_eq (hinit m.id)
    · rw [branch3_aborted_eq, branch2_aborted_eq, branch1_aborted_eq (hinit m.id)]

theorem runMatches_aborted_eq (env : TickEnv) (now : Int)
    (hinit : ∀ id, env.initOk id = true) :
    ∀ (ms : List MatchRec) (acc : TickAcc),
      (runMatches env now ms acc).2.aborted = acc.aborted := by
  intro ms
  induction ms with
  | nil => intro acc; rfl
  | cons m ms ih =>
      intro acc
      rw [runMatches_cons]
      rw [ih, stepMatch_aborted_eq hinit]

theorem stepMatch_not_aborted_eq {env : TickEnv} {now : Int} {m : MatchRec}
    {acc : TickAcc} (hna : acc.aborted = false)
    (hok : (branch1 env now m acc).2.aborted = false) :
    stepMatch env now m acc =
      branch3 env
        (branch2 now (branch1 env now m acc).1 (branch1 env now m acc).2).1
        (branch2 now (branch1 env now m acc).1 (branch1 env now m acc).2).2 := by
  rw [stepMatch_eq, if_neg (by simp [hna]), if_neg (by simp [hok])]

/-- The full effect of a tick iteration on a `LIVE`, registered match whose
tracker reports it ended: set and persist `COMPLETED`, stop and delete the
handle, log the released handle. -/
theorem stepMatch_completes {env : TickEnv} {now : Int} {m : MatchRec}
    {acc : TickAcc} (hna : acc.aborted = false)
    (hlive : m.status = .LIVE) (hkey : hasKey acc.scrapers m.id = true)
    (hend : env.ended m.id = true) :
    stepMatch env now m acc =
      ({ m with status := .COMPLETED },
       { acc with
           scrapers := removeScraper acc.scrapers m.id,
           stoppedLog := acc.stoppedLog ++
             [(m.id, scraperStop
               ((lookupScraper acc.scrapers m.id).getD (newScraper m.id m.url)))],
           stored := updateStatusInList m.id .COMPLETED acc.stored }) := by
  have hb1 : branch1 env now m acc = (m, acc) := by
    rw [branch1, if_neg]
    rintro ⟨-, -, hk⟩
    rw [hkey] at hk
    exact absurd hk (by decide)
  have hb2 : branch2 now m acc = (m, acc) := by
    rw [branch2, if_neg]
    rintro ⟨-, -, hne⟩
    exact hne hlive
  have hb3 : branch3 env m acc =
      ({ m with status := .COMPLETED },
       { acc with
           scrapers := removeScraper acc.scrapers m.id,
           stoppedLog := acc.stoppedLog ++
             [(m.id, scraperStop
               ((lookupScraper acc.scrapers m.id).getD (newScraper m.id m.url)))],
           stored := updateStatusInList m.id .COMPLETED acc.stored }) := by
    rw [branch3, if_pos ⟨hlive, hkey⟩, if_pos hend]
  rw [stepMatch_not_aborted_eq hna (by rw [hb1]; exact hna), hb1]
  dsimp only
  rw [hb2]
  dsimp only
  exact hb3

theorem branch1_log_eq {env : TickEnv} {now : Int} {m : MatchRec}
    {acc : TickAcc} :
    (branch1 env now m acc).2.stoppedLog = acc.stoppedLog := by
  rw [branch1]
  split
  · split <;> rfl
  · rfl

theorem branch2_log_eq {now : Int} {m : MatchRec} {acc : TickAcc} :
    (branch2 now m acc).2.stoppedLog = acc.stoppedLog := by
  rw [branch2]
  split <;> rfl

theorem branch3_log_mono {env : TickEnv} {m : MatchRec} {acc : TickAcc}
    {p : String × ScraperState} (h : p ∈ acc.stoppedLog) :
    p ∈ (branch3 env m acc).2.stoppedLog := by
  rw [branch3]
  split
  · split
    · exact List.mem_append.mpr (Or.inl h)
    · exact h
  · exact h

theorem stepMatch_log_mono {env : TickEnv} {now : Int} {m : MatchRec}
    {acc : TickAcc} {p : String × ScraperState} (h : p ∈ acc.stoppedLog) :
    p ∈ (stepMatch env now m acc).2.stoppedLog := by
  rw [stepMatch_eq]
  split
  · exact h
  · split
    · rw [branch1_log_eq]
      exact h
    · exact branch3_log_mono (by rw [branch2_log_eq, branch1_log_eq]; exact h)

theorem runMatches_log_mono (env : TickEnv) (now : Int) :
    ∀ (ms : List MatchRec) (acc : TickAcc) (p : String × ScraperState),
      p ∈ acc.stoppedLog → p ∈ (runMatches env now ms acc).2.stoppedLog := by
  intro ms
  induction ms with
  | nil => intro acc p h; exact h
  | cons m ms ih =>
      intro acc p h
      rw [runMatches_cons]
      exact ih _ p (stepMatch_log_mono h)

theorem lookupStatus_update_other {id x : String} {st : MatchStatus} :
    ∀ l : List MatchRec, id ≠ x →
      lookupStatus (updateStatusInList id st l) x = lookupStatus l x := by
  intro l hne
  induction l with
  | nil => rfl
  | cons m ms ih =>
      by_cases h : m.id = id
      · rw [updateStatusInList, if_pos h, lookupStatus, lookupStatus]
        have : ¬ m.id = x := by rw [h]; exact hne
        rw [if_neg this, if_neg this]
      · rw [updateStatusInList, if_neg h, lookupStatus, lookupStatus]
        split
        · rfl
        · exact ih

theorem lookupStatus_update_self {id : String} {st : MatchStatus} :
    ∀ l : List MatchRec, id ∈ l.map (fun m => m.id) →
      lookupStatus (updateStatusInList id st l) id = some st := by
  intro l hmem
  induction l with
  | nil => simp at hmem
  | cons m ms ih =>
      by_cases h : m.id = id
      · rw [updateStatusInList, if_pos h, lookupStatus, if_pos h]
      · rw [updateStatusInList, if_neg h, lookupStatus, if_neg h]
        rw [List.map_cons] at hmem
        rcases List.mem_cons.mp hmem with heq | hmem'
        · exact absurd heq.symm h
        · exact ih hmem'

theorem updateStatusInList_map_id (id : String) (st : MatchStatus) :
    ∀ l : List MatchRec,
      (updateStatusInList id st l).map (fun m => m.id) =
        l.map (fun m => m.id) := by
  intro l
  induction l with
  | nil => rfl
  | cons m ms ih =>
      rw [updateStatusInList]
      split
      · simp
      · simp [ih]

theorem branch1_stored_other {env : TickEnv} {now : Int} {m : MatchRec}
    {acc : TickAcc} {x : String} (hne : m.id ≠ x) :
    lookupStatus (branch1 env now m acc).2.stored x =
      lookupStatus acc.stored x := by
  rw [branch1]
  split
  · split
    · exact lookupStatus_update_other _ hne
    · rfl
  · rfl

theorem branch2_stored_other {now : Int} {m : MatchRec} {acc : TickAcc}
    {x : String} (hne : m.id ≠ x) :
    lookupStatus (branch2 now m acc).2.stored x = lookupStatus acc.stored x := by
  rw [branch2]
  split
  · exact lookupStatus_update_other _ hne
  · rfl

theorem branch3_stored_other {env : TickEnv} {m : MatchRec} {acc : TickAcc}
    {x : String} (hne : m.id ≠ x) :
    lookupStatus (branch3 env m acc).2.stored x = lookupStatus acc.stored x := by
  rw [branch3]
  split
  · split
    · exact lookupStatus_update_other _ hne
    · rfl
  · rfl

theorem stepMatch_stored_other {env : TickEnv} {now : Int} {m : MatchRec}
    {acc : TickAcc} {x : String} (hne : m.id ≠ x) :
    lookupStatus (stepMatch env now m acc).2.stored x =
      lookupStatus acc.stored x := by
  rw [stepMatch_eq]
  split
  · rfl
  · split
    · exact branch1_stored_other hne
    · rw [branch3_stored_other (by rw [branch2_fst_id, branch1_fst_id]; exact hne),
        branch2_stored_other (by rw [branch1_fst_id]; exact hne),
        branch1_stored_other hne]

theorem runMatches_stored_other (env : TickEnv) (now : Int) :
    ∀ (ms : List MatchRec) (acc : TickAcc) (x : String),
      (∀ m ∈ ms, m.id ≠ x) →
      lookupStatus (runMatches env now ms acc).2.stored x =
        lookupStatus acc.stored x := by
  intro ms
  induction ms with
  | nil => intro acc x _; rfl
  | cons m ms ih =>
      intro acc x hall
      rw [runMatches_cons]
      rw [ih _ x (fun m' hm' => hall m' (List.mem_cons_of_mem m hm')),
        stepMatch_stored_other (hall m (List.mem_cons_self m ms))]

theorem branch1_stored_ids {env : TickEnv} {now : Int} {m : MatchRec}
    {acc : TickAcc} :
    (branch1 env now m acc).2.stored.map (fun m => m.id) =
      acc.stored.map (fun m => m.id) := by
  rw [branch1]
  split
  · split
    · exact updateStatusInList_map_id _ _ _
    · rfl
  · rfl

theorem branch2_stored_ids {now : Int} {m : MatchRec} {acc : TickAcc} :
    (branch2 now m acc).2.stored.map (fun m => m.id) =
      acc.stored.map (fun m => m.id) := by
  rw [branch2]
  split
  · exact updateStatusInList_map_id _ _ _
  · rfl

theorem branch3_stored_ids {env : TickEnv} {m : MatchRec} {acc : TickAcc} :
    (branch3 env m acc).2.stored.map (fun m => m.id) =
      acc.stored.map (fun m => m.id) := by
  rw [branch3]
  split
  · split
    · exact updateStatusInList_map_id _ _ _
    · rfl
  · rfl

theorem stepMatch_stored_ids {env : TickEnv} {now : Int} {m : MatchRec}
    {acc : TickAcc} :
    (stepMatch env now m acc).2.stored.map (fun m => m.id) =
      acc.stored.map (fun m => m.id) := by
  rw [stepMatch_eq]
  split
  · rfl
  · split
    · exact branch1_stored_ids
    · rw [branch3_stored_ids, branch2_stored_ids, branch1_stored_ids]

theorem runMatches_stored_ids (env : TickEnv) (now : Int) :
    ∀ (ms : List MatchRec) (acc : TickAcc),
      (runMatches env now ms acc).2.stored.map (fun m => m.id) =
        acc.stored.map (fun m => m.id) := by
  intro ms
  induction ms with
  | nil => intro acc; rfl
  | cons m ms ih =>
      intro acc
      rw [runMatches_cons]
      rw [ih, stepMatch_stored_ids]

theorem runMatches_map_id (env : TickEnv) (now : Int) :
    ∀ (ms : List MatchRec) (acc : TickAcc),
      (runMatches env now ms acc).1.map (fun m => m.id) =
        ms.map (fun m => m.id) := by
  intro ms
  induction ms with
  | nil => intro acc; rfl
  | cons m ms ih =>
      intro acc
      rw [runMatches_cons]
      simp [ih, stepMatch_fst_id]

/-- The loop of one tick over `pre ++ m :: post`, where `m` is `LIVE`,
registered, reported ended, and no provisioning fails: `m` comes back
`COMPLETED` in place, its handle is deleted (and logged in its stopped
state), and its persisted status is `COMPLETED`. -/
theorem runMatches_completes (env : TickEnv) (now : Int)
    (pre post : List MatchRec) (m : MatchRec) (acc0 : TickAcc)
    (hab : acc0.aborted = false)
    (hinit : ∀ id, env.initOk id = true)
    (hpre : ∀ m' ∈ pre, m'.id ≠ m.id)
    (hpost : ∀ m' ∈ post, m'.id ≠ m.id)
    (hlive : m.status = .LIVE)
    (hkey : m.id ∈ scraperIds acc0.scrapers)
    (hend : env.ended m.id = true)
    (hstored : m.id ∈ acc0.stored.map (fun m => m.id)) :
    ∃ pre' post',
      (runMatches env now (pre ++ m :: post) acc0).1 =
        pre' ++ ({ m with status := .COMPLETED }) :: post' ∧
      pre'.length = pre.length ∧
      pre'.map (fun m => m.id) = pre.map (fun m => m.id) ∧
      post'.map (fun m => m.id) = post.map (fun m => m.id) ∧
      m.id ∉ scraperIds (runMatches env now (pre ++ m :: post) acc0).2.scrapers ∧
      lookupStatus (runMatches env now (pre ++ m :: post) acc0).2.stored m.id =
        some .COMPLETED ∧
      (∃ st, (m.id, st) ∈ (runMatches env now (pre ++ m :: post) acc0).2.stoppedLog ∧
        st.stopEventSet = true ∧ st.isTracking = false ∧
        st.hasDriver = false ∧ st.threadRunning = false) := by
  have hA_ab : (runMatches env now pre acc0).2.aborted = false :=
    (runMatches_aborted_eq env now hinit pre acc0).trans hab
  have hA_key : m.id ∈ scraperIds (runMatches env now pre acc0).2.scrapers :=
    runMatches_keeps_in env now pre acc0 m.id hkey hpre
  have hstep := @stepMatch_completes env now m (runMatches env now pre acc0).2
    hA_ab hlive (hasKey_iff_mem.mpr hA_key) hend
  rw [runMatches_append, runMatches_cons, hstep]
  dsimp only
  refine ⟨(runMatches env now pre acc0).1, _, rfl,
    runMatches_length env now pre acc0, runMatches_map_id env now pre acc0,
    runMatches_map_id env now post _, ?_, ?_, ?_⟩
  · exact runMatches_not_mem env now post _ m.id
      (fun hmem => (mem_scraperIds_remove.mp hmem).2 rfl)
      (fun m' hm' heq => absurd heq (hpost m' hm'))
  · have hmem' : m.id ∈ (runMatches env now pre acc0).2.stored.map
        (fun m => m.id) := by
      rw [runMatches_stored_ids env now pre acc0]
      exact hstored
    exact (runMatches_stored_other env now post _ m.id hpost).trans
      (lookupStatus_update_self _ hmem')
  · refine ⟨scraperStop ((lookupScraper
        (runMatches env now pre acc0).2.scrapers m.id).getD
          (newScraper m.id m.url)),
      runMatches_log_mono env now post _ _ ?_, rfl, rfl, rfl, rfl⟩
    exact List.mem_append.mpr (Or.inr (List.mem_singleton.mpr rfl))

/-! ## Claim theorems: completion of a live match (C8) -/

/-- C8.  When a `LIVE`, registered match's tracker reports the match ended
during a tick (and no provisioning failure aborts the tick first): by the
end of that tick the match is `COMPLETED` in memory and in the store, its
tracker was stopped (stop event set, loop halted, driver released — as
logged at release), its handle is gone from the active map and from
`get_status`'s active ids, and every subsequent tick at any `now2 ≥ now`
leaves the match record unchanged with still no handle. -/
theorem C8_live_match_completes (env : TickEnv) (now : Int)
    (s : SchedulerState) (pre post : List MatchRec) (m : MatchRec)
    (hr : s.isRunning = true)
    (hml : s.matchList = pre ++ m :: post)
    (hnd : (s.matchList.map (fun m => m.id)).Nodup)
    (hlive : m.status = .LIVE)
    (hkey : hasKey s.activeScrapers m.id = true)
    (hend : env.ended m.id = true)
    (hinit : ∀ id, env.initOk id = true)
    (hstart : m.dateTime ≤ now)
    (hstored : m.id ∈ s.storedList.map (fun m => m.id)) :
    ∃ pre' post',
      (checkMatchStatus env now s).matchList =
        pre' ++ ({ m with status := .COMPLETED }) :: post' ∧
      pre'.length = pre.length ∧
      m.id ∉ scraperIds (checkMatchStatus env now s).activeScrapers ∧
      lookupStatus (checkMatchStatus env now s).storedList m.id =
        some .COMPLETED ∧
      m.id ∉ (getStatus (checkMatchStatus env now s)).activeScrapers ∧
      (∃ st, (m.id, st) ∈ (checkMatchStatus env now s).stoppedLog ∧
        st.stopEventSet = true ∧ st.isTracking = false ∧
        st.hasDriver = false ∧ st.threadRunning = false) ∧
      (∀ (env2 : TickEnv) (now2 : Int), now ≤ now2 →
        ∃ pre2 post2,
          (checkMatchStatus env2 now2 (checkMatchStatus env now s)).matchList =
            pre2 ++ ({ m with status := .COMPLETED }) :: post2 ∧
          pre2.length = pre.length ∧
          hasKey (checkMatchStatus env2 now2
            (checkMatchStatus env now s)).activeScrapers m.id = false) := by
  have hnd0 := hnd
  rw [hml, List.map_append, List.map_cons, List.nodup_append] at hnd0
  obtain ⟨-, hmid, hdisj⟩ := hnd0
  have hpre : ∀ m' ∈ pre, m'.id ≠ m.id := fun m' hm' heq =>
    hdisj (List.mem_map_of_mem _ hm') (heq ▸ List.mem_cons_self _ _)
  have hpost : ∀ m' ∈ post, m'.id ≠ m.id := fun m' hm' heq =>
    (List.nodup_cons.mp hmid).1 (heq ▸ List.mem_map_of_mem _ hm')
  have hrn : ¬ s.isRunning = false := by simp [hr]
  obtain ⟨pre', post', h1, h2, h3, h4, h5, h6, h7⟩ :=
    runMatches_completes env now pre post m
      ⟨s.activeScrapers, s.storedList, s.stoppedLog, false⟩ rfl hinit
      hpre hpost hlive (hasKey_iff_mem.mp hkey) hend hstored
  have hml' : (checkMatchStatus env now s).matchList =
      pre' ++ ({ m with status := .COMPLETED }) :: post' := by
    rw [checkMatchStatus, if_neg hrn]
    show (runMatches env now s.matchList
      ⟨s.activeScrapers, s.storedList, s.stoppedLog, false⟩).1 = _
    rw [hml]
    exact h1
  have hscr : m.id ∉ scraperIds (checkMatchStatus env now s).activeScrapers := by
    rw [checkMatchStatus, if_neg hrn]
    show m.id ∉ scraperIds (runMatches env now s.matchList
      ⟨s.activeScrapers, s.storedList, s.stoppedLog, false⟩).2.scrapers
    rw [hml]
    exact h5
  refine ⟨pre', post', hml', h2, hscr, ?_, hscr, ?_, ?_⟩
  · rw [checkMatchStatus, if_neg hrn]
    show lookupStatus (runMatches env now s.matchList
      ⟨s.activeScrapers, s.storedList, s.stoppedLog, false⟩).2.stored m.id = _
    rw [hml]
    exact h6
  · rw [checkMatchStatus, if_neg hrn]
    show ∃ st, (m.id, st) ∈ (runMatches env now s.matchList
      ⟨s.activeScrapers, s.storedList, s.stoppedLog, false⟩).2.stoppedLog ∧
      st.stopEventSet = true ∧ st.isTracking = false ∧
      st.hasDriver = false ∧ st.threadRunning = false
    rw [hml]
    exact h7
  · intro env2 now2 hle
    have hpre2 : ∀ m'' ∈ pre', m''.id ≠
        ({ m with status := MatchStatus.COMPLETED } : MatchRec).id := by
      intro m'' hm'' heq
      have : m''.id ∈ pre.map (fun m => m.id) := by
        rw [← h3]
        exact List.mem_map_of_mem _ hm''
      exact hdisj this (heq ▸ List.mem_cons_self _ _)
    have hpost2 : ∀ m'' ∈ post', m''.id ≠
        ({ m with status := MatchStatus.COMPLETED } : MatchRec).id := by
      intro m'' hm'' heq
      have : m''.id ∈ post.map (fun m => m.id) := by
        rw [← h4]
        exact List.mem_map_of_mem _ hm''
      exact (List.nodup_cons.mp hmid).1 (heq ▸ this)
    obtain ⟨pre2, post2, hml2, hlen2, hnk2⟩ :=
      tick_started_match_untouched env2 now2 (checkMatchStatus env now s)
        pre' post' ({ m with status := .COMPLETED }) hml' hpre2 hpost2
        (le_trans hstart hle) (hasKey_false_iff.mpr hscr)
    exact ⟨pre2, post2, hml2, hlen2.trans h2, hnk2⟩

/-- Witness for C8: a single `LIVE` tracked match whose extractor reports
the end, against a running scheduler. -/
theorem C8_live_match_completes_witness :
    ∃ pre' post',
      (checkMatchStatus ⟨fun _ => true, fun _ => true⟩ 0
          ⟨[{ id := "m2", teams := "t", fmt := "T20", dateTime := -50,
              url := "v", status := .LIVE }],
           [("m2", { matchId := "m2", matchUrl := "v", hasDriver := true,
                     isTracking := true, stopEventSet := false,
                     threadRunning := true, threadsSpawned := 1 })],
           true, true,
           [{ id := "m2", teams := "t", fmt := "T20", dateTime := -50,
              url := "v", status := .LIVE }], []⟩).matchList =
        pre' ++ ({ id := "m2", teams := "t", fmt := "T20", dateTime := -50,
                   url := "v", status := .COMPLETED } : MatchRec) :: post' ∧
      pre'.length = ([] : List MatchRec).length ∧
      "m2" ∉ scraperIds (checkMatchStatus ⟨fun _ => true, fun _ => true⟩ 0
          ⟨[{ id := "m2", teams := "t", fmt := "T20", dateTime := -50,
              url := "v", status := .LIVE }],
           [("m2", { matchId := "m2", matchUrl := "v", hasDriver := true,
                     isTracking := true, stopEventSet := false,
                     threadRunning := true, threadsSpawned := 1 })],
           true, true,
           [{ id := "m2", teams := "t", fmt := "T20", dateTime := -50,
              url := "v", status := .LIVE }], []⟩).activeScrapers ∧
      lookupStatus (checkMatchStatus ⟨fun _ => true, fun _ => true⟩ 0
          ⟨[{ id := "m2", teams := "t", fmt := "T20", dateTime := -50,
              url := "v", status := .LIVE }],
           [("m2", { matchId := "m2", matchUrl := "v", hasDriver := true,
                     isTracking := true, stopEventSet := false,
                     threadRunning := true, threadsSpawned := 1 })],
           true, true,
           [{ id := "m2", teams := "t", fmt := "T20", dateTime := -50,
              url := "v", status := .LIVE }], []⟩).storedList "m2" =
        some .COMPLETED ∧
      "m2" ∉ (getStatus (checkMatchStatus ⟨fun _ => true, fun _ => true⟩ 0
          ⟨[{ id := "m2", teams := "t", fmt := "T20", dateTime := -50,
              url := "v", status := .LIVE }],
           [("m2", { matchId := "m2", matchUrl := "v", hasDriver := true,
                     isTracking := true, stopEventSet := false,
                     threadRunning := true, threadsSpawned := 1 })],
           true, true,
           [{ id := "m2", teams := "t", fmt := "T20", dateTime := -50,
              url := "v", status := .LIVE }], []⟩)).activeScrapers ∧
      (∃ st, ("m2", st) ∈ (checkMatchStatus ⟨fun _ => true, fun _ => true⟩ 0
          ⟨[{ id := "m2", teams := "t", fmt := "T20", dateTime := -50,
              url := "v", status := .LIVE }],
           [("m2", { matchId := "m2", matchUrl := "v", hasDriver := true,
                     isTracking := true, stopEventSet := false,
                     threadRunning := true, threadsSpawned := 1 })],
           true, true,
           [{ id := "m2", teams := "t", fmt := "T20", dateTime := -50,
              url := "v", status := .LIVE }], []⟩).stoppedLog ∧
        st.stopEventSet = true ∧ st.isTracking = false ∧
        st.hasDriver = false ∧ st.threadRunning = false) ∧
      (∀ (env2 : TickEnv) (now2 : Int), (0 : Int) ≤ now2 →
        ∃ pre2 post2,
          (checkMatchStatus env2 now2
            (checkMatchStatus ⟨fun _ => true, fun _ => true⟩ 0
              ⟨[{ id := "m2", teams := "t", fmt := "T20", dateTime := -50,
                  url := "v", status := .LIVE }],
               [("m2", { matchId := "m2", matchUrl := "v", hasDriver := true,
                         isTracking := true, stopEventSet := false,
                         threadRunning := true, threadsSpawned := 1 })],
               true, true,
               [{ id := "m2", teams := "t", fmt := "T20", dateTime := -50,
                  url := "v", status := .LIVE }], []⟩)).matchList =
            pre2 ++ ({ id := "m2", teams := "t", fmt := "T20",
                       dateTime := -50, url := "v",
                       status := .COMPLETED } : MatchRec) :: post2 ∧
          pre2.length = ([] : List MatchRec).length ∧
          hasKey (checkMatchStatus env2 now2
            (checkMatchStatus ⟨fun _ => true, fun _ => true⟩ 0
              ⟨[{ id := "m2", teams := "t", fmt := "T20", dateTime := -50,
                  url := "v", status := .LIVE }],
               [("m2", { matchId := "m2", matchUrl := "v", hasDriver := true,
                         isTracking := true, stopEventSet := false,
                         threadRunning := true, threadsSpawned := 1 })],
               true, true,
               [{ id := "m2", teams := "t", fmt := "T20", dateTime := -50,
                  url := "v", status := .LIVE }], []⟩)).activeScrapers "m2" =
            false) :=
  C8_live_match_completes ⟨fun _ => true, fun _ => true⟩ 0
    ⟨[{ id := "m2", teams := "t", fmt := "T20", dateTime := -50,
        url := "v", status := .LIVE }],
     [("m2", { matchId := "m2", matchUrl := "v", hasDriver := true,
               isTracking := true, stopEventSet := false,
               threadRunning := true, threadsSpawned := 1 })],
     true, true,
     [{ id := "m2", teams := "t", fmt := "T20", dateTime := -50,
        url := "v", status := .LIVE }], []⟩ [] []
    { id := "m2", teams := "t", fmt := "T20", dateTime := -50,
      url := "v", status := .LIVE }
    rfl rfl (by decide) rfl rfl rfl (fun _ => rfl) (by decide) (by decide)

end CricInfo
